import Mathlib

/-
Shallow embedding of the biometric matching engine of the FBI-FACE-RECONITION
repository (files biometric_features.py, biometric_auth.py, biometric_database.py,
fbi_matcher.py).  Python float arithmetic is idealized as exact arithmetic: the
protocol layer (which only adds, multiplies, divides and compares similarity
scores) is embedded over the rationals, parameterized by an arbitrary
similarity function, and the similarity engine itself (cosine similarity,
which needs square roots) is embedded over the reals.  Python dictionaries
(which iterate in insertion order) are embedded as association lists, and a
Python exception is embedded as the none case of an Option result.
-/

namespace FaceRec

/-- Python max of a nonempty list: max(xs) where xs = s :: ss. -/
def foldlMax (s : ℚ) (ss : List ℚ) : ℚ :=
  ss.foldl max s

/-- Python list.index: index of the first occurrence of x (length if absent;
the sources only call it on an element of the list). -/
def firstIdx (x : ℚ) : List ℚ → ℕ
  | [] => 0
  | y :: ys => if y = x then 0 else firstIdx x ys + 1

/-- Insert x into a list so that every earlier element has a strictly larger
key; together with sortDesc this is the stable descending sort performed by
the Python call list.sort with a key and reverse set, used by both
FBIMatcher.match_against_database and BiometricAuthSystem.identify. -/
def insertDesc {α : Type} (key : α → ℚ) (x : α) : List α → List α
  | [] => [x]
  | y :: ys => if key x < key y then y :: insertDesc key x ys else x :: y :: ys

/-- Stable sort, descending by key (Python list.sort with reverse set). -/
def sortDesc {α : Type} (key : α → ℚ) : List α → List α
  | [] => []
  | x :: xs => insertDesc key x (sortDesc key xs)

/-- Python membership lookup in a dict modelled as an association list:
uid in d, together with d[uid]. -/
def dictLookup {β : Type} (uid : String) : List (String × β) → Option β
  | [] => none
  | p :: ps => if p.1 = uid then some p.2 else dictLookup uid ps

/-! ## FBIMatcher (fbi_matcher.py) -/

/-- Result row of FBIMatcher.match_against_database (one dict of the results
list). -/
structure MatchResult where
  person_id : String
  confidence : ℚ
  max_similarity : ℚ
  avg_similarity : ℚ
  best_match_index : Int
  num_images : ℕ
  is_match : Bool
deriving DecidableEq, Repr

/-- FBIMatcher.match_against_person: returns (max_similarity, avg_similarity,
best_match_index); (0, 0, -1) when the person has no stored features. -/
def match_against_person {α : Type} (sim : α → α → ℚ) (query : α) (ts : List α) :
    ℚ × ℚ × Int :=
  match ts.map (sim query) with
  | [] => (0, 0, -1)
  | s :: ss =>
    (foldlMax s ss, (s :: ss).sum / ((s :: ss).length : ℚ),
      (firstIdx (foldlMax s ss) (s :: ss) : Int))

/-- Body of the loop of FBIMatcher.match_against_database: the result row
built for one person of the database. -/
def matchRow {α : Type} (sim : α → α → ℚ) (threshold : ℚ) (query : α)
    (p : String × List α) : MatchResult :=
  let r := match_against_person sim query p.2
  let confidence := 0.7 * r.1 + 0.3 * r.2.1
  { person_id := p.1
    confidence := confidence
    max_similarity := r.1
    avg_similarity := r.2.1
    best_match_index := r.2.2
    num_images := p.2.length
    is_match := decide (threshold ≤ confidence) }

/-- FBIMatcher.match_against_database: build a row per person, sort by
confidence descending, return the first top_k rows (no threshold filter). -/
def match_against_database {α : Type} (sim : α → α → ℚ) (threshold : ℚ)
    (query : α) (db : List (String × List α)) (top_k : ℕ) : List MatchResult :=
  (sortDesc (fun m => m.confidence) (db.map (matchRow sim threshold query))).take top_k

/-! ## BiometricAuthSystem (biometric_auth.py) and BiometricDatabase
(biometric_database.py) -/

/-- One user entry of BiometricDatabase: the template list and the metadata
dict.  The two wall-clock timestamp fields of the source are omitted
(nondeterministic, used by no claim). -/
structure UserEntry (α μ : Type) where
  templates : List α
  metadata : μ
deriving DecidableEq, Repr

/-- BiometricDatabase.get_user_templates: the template list, or none when the
user is absent. -/
def get_user_templates {α μ : Type} (db : List (String × UserEntry α μ))
    (uid : String) : Option (List α) :=
  match dictLookup uid db with
  | some e => some e.templates
  | none => none

/-- BiometricDatabase.enroll_user: append a template to an existing user
(leaving its metadata dict untouched) or create a new user at the end of the
dict; returns True unconditionally. -/
def db_enroll_user {α μ : Type} (db : List (String × UserEntry α μ))
    (uid : String) (fv : α) (meta : μ) : Bool × List (String × UserEntry α μ) :=
  if (dictLookup uid db).isSome then
    (true, db.map (fun p =>
      if p.1 = uid then (p.1, ⟨p.2.templates ++ [fv], p.2.metadata⟩) else p))
  else
    (true, db ++ [(uid, ⟨[fv], meta⟩)])

/-- Inner double loop of BiometricAuthSystem._check_sample_consistency: every
pair at positions i < j must have similarity at least minSim. -/
def pairwiseConsistent {α : Type} (sim : α → α → ℚ) (minSim : ℚ) :
    List α → Bool
  | [] => true
  | x :: xs => (xs.all fun y => decide (minSim ≤ sim x y)) &&
      pairwiseConsistent sim minSim xs

/-- BiometricAuthSystem._check_sample_consistency. -/
def check_sample_consistency {α : Type} (sim : α → α → ℚ) (minSim : ℚ)
    (fvs : List α) : Bool :=
  if fvs.length < 2 then true else pairwiseConsistent sim minSim fvs

/-- BiometricAuthSystem.enroll_user, after feature extraction (the feature
vectors of the sample images are the input; the human-readable message of the
source is omitted): sample-count check, consistency check, then one
database.enroll_user call per feature vector. -/
def enroll_user {α μ : Type} (sim : α → α → ℚ) (minSim : ℚ) (minSamples : ℕ)
    (db : List (String × UserEntry α μ)) (uid : String) (fvs : List α)
    (meta : μ) : Bool × List (String × UserEntry α μ) :=
  if fvs.length < minSamples then (false, db)
  else if check_sample_consistency sim minSim fvs then
    (true, fvs.foldl (fun d fv => (db_enroll_user d uid fv meta).2) db)
  else (false, db)

/-- BiometricAuthSystem.verify, after feature extraction: none models the
ValueError that Python max raises on an empty sequence; a missing user yields
(False, 0.0). -/
def verify {α μ : Type} (sim : α → α → ℚ) (vthr : ℚ)
    (db : List (String × UserEntry α μ)) (uid : String) (feat : α) :
    Option (Bool × ℚ) :=
  match get_user_templates db uid with
  | none => some (false, 0)
  | some ts =>
    match ts.map (sim feat) with
    | [] => none
    | s :: ss =>
      let maxSim := foldlMax s ss
      some (decide (vthr ≤ maxSim), maxSim)

/-- Per-user body of the loop of BiometricAuthSystem.identify: the pair
(user_id, max similarity); none models the ValueError that Python max raises
on an empty sequence. -/
def identifyRow {α : Type} (sim : α → α → ℚ) (query : α)
    (p : String × List α) : Option (String × ℚ) :=
  match p.2.map (sim query) with
  | [] => none
  | s :: ss => some (p.1, foldlMax s ss)

/-- The loop of BiometricAuthSystem.identify over all users. -/
def collectMatches {α : Type} (sim : α → α → ℚ) (query : α) :
    List (String × List α) → Option (List (String × ℚ))
  | [] => some []
  | p :: ps =>
    (identifyRow sim query p).bind fun m =>
      (collectMatches sim query ps).bind fun ms => some (m :: ms)

/-- BiometricAuthSystem.identify, after feature extraction: score every user,
sort by score descending, keep the scores at least idThr, truncate to top_k. -/
def identify {α : Type} (sim : α → α → ℚ) (idThr : ℚ) (query : α)
    (db : List (String × List α)) (top_k : ℕ) : Option (List (String × ℚ)) :=
  (collectMatches sim query db).bind fun ms =>
    some (((sortDesc (fun m => m.2) ms).filter
      (fun m => decide (idThr ≤ m.2))).take top_k)

/-! ## Similarity engine (biometric_features.py, fbi_matcher.py), over the
reals -/

/-- Componentwise dot product of two feature vectors (numpy dot of
equal-length 1-d arrays; zipWith truncates at the shorter vector). -/
def dotl (a b : List ℝ) : ℝ :=
  (List.zipWith (fun x y => x * y) a b).sum

/-- Euclidean norm of a feature vector (numpy linalg.norm). -/
noncomputable def norml (a : List ℝ) : ℝ :=
  Real.sqrt (dotl a a)

/-- Cosine similarity of two feature vectors, the quantity computed by both
sklearn cosine_similarity and one minus the scipy cosine distance. -/
noncomputable def cosineSim (a b : List ℝ) : ℝ :=
  dotl a b / (norml a * norml b)

/-- FBIMatcher.calculate_similarity: cosine similarity rescaled from [-1, 1]
to [0, 1]; the source applies no clamping here. -/
noncomputable def calculate_similarity (a b : List ℝ) : ℝ :=
  (cosineSim a b + 1) / 2

/-- BiometricFeatureExtractor.compute_similarity: one minus the scipy cosine
distance, clamped into [0, 1]; the source applies no affine rescaling here. -/
noncomputable def compute_similarity (a b : List ℝ) : ℝ :=
  max 0 (min 1 (1 - (1 - cosineSim a b)))

/-- The similarity the spec describes: cosine rescaled from [-1, 1] to [0, 1]
and then clamped into [0, 1].  Stated from the words of the spec, for
comparison with the two functions above. -/
noncomputable def specSimilarity (a b : List ℝ) : ℝ :=
  max 0 (min 1 ((cosineSim a b + 1) / 2))

/-! ## Angular features (biometric_features.py _calculate_angle), over the
reals -/

/-- A 3-d landmark point. -/
structure Point3 where
  x : ℝ
  y : ℝ
  z : ℝ

/-- Componentwise difference of two points. -/
def sub3 (p q : Point3) : Point3 :=
  ⟨p.x - q.x, p.y - q.y, p.z - q.z⟩

/-- Dot product of two 3-d vectors. -/
def dot3 (u v : Point3) : ℝ :=
  u.x * v.x + u.y * v.y + u.z * v.z

/-- Euclidean norm of a 3-d vector. -/
noncomputable def norm3 (u : Point3) : ℝ :=
  Real.sqrt (dot3 u u)

/-- BiometricFeatureExtractor._calculate_angle: the angle at p2 formed by
p1 - p2 and p3 - p2, via the arccosine of the epsilon-guarded normalized dot
product, clipped to [-1, 1], converted to degrees.  The epsilon 1e-6 of the
source is written 1 / 1000000. -/
noncomputable def calculate_angle (p1 p2 p3 : Point3) : ℝ :=
  let v1 := sub3 p1 p2
  let v2 := sub3 p3 p2
  let cosAngle := dot3 v1 v2 / (norm3 v1 * norm3 v2 + 1 / 1000000)
  let clipped := min 1 (max (-1) cosAngle)
  Real.arccos clipped * 180 / Real.pi

/-! ## Helper lemmas -/

theorem foldlMax_mem (s : ℚ) (ss : List ℚ) : foldlMax s ss ∈ s :: ss := by
  induction ss generalizing s with
  | nil => simp [foldlMax]
  | cons x xs ih =>
    have h := ih (max s x)
    rw [foldlMax, List.foldl_cons, ← foldlMax]
    rcases List.mem_cons.mp h with h1 | h1
    · rcases max_choice s x with hc | hc
      · rw [h1, hc]
        exact List.mem_cons_self _ _
      · rw [h1, hc]
        exact List.mem_cons_of_mem _ (List.mem_cons_self _ _)
    · exact List.mem_cons_of_mem _ (List.mem_cons_of_mem _ h1)

theorem le_foldlMax (s : ℚ) (ss : List ℚ) :
    ∀ y ∈ s :: ss, y ≤ foldlMax s ss := by
  induction ss generalizing s with
  | nil =>
    intro y hy
    rw [List.mem_singleton] at hy
    simp [foldlMax, hy]
  | cons x xs ih =>
    intro y hy
    rw [foldlMax, List.foldl_cons, ← foldlMax]
    have hmax : max s x ≤ foldlMax (max s x) xs :=
      ih (max s x) _ (List.mem_cons_self _ _)
    rcases List.mem_cons.mp hy with h1 | h1
    · rw [h1]
      exact le_trans (le_max_left s x) hmax
    · rcases List.mem_cons.mp h1 with h2 | h2
      · rw [h2]
        exact le_trans (le_max_right s x) hmax
      · exact ih (max s x) _ (List.mem_cons_of_mem _ h2)

theorem mem_insertDesc {α : Type} (key : α → ℚ) (x a : α) (l : List α) :
    a ∈ insertDesc key x l ↔ a = x ∨ a ∈ l := by
  induction l with
  | nil => simp [insertDesc]
  | cons y ys ih =>
    rw [insertDesc]
    by_cases h : key x < key y
    · rw [if_pos h]
      simp only [List.mem_cons, ih]
      tauto
    · rw [if_neg h]
      simp only [List.mem_cons]

theorem pairwise_insertDesc {α : Type} (key : α → ℚ) (x : α) (l : List α)
    (h : l.Pairwise (fun u v => key v ≤ key u)) :
    (insertDesc key x l).Pairwise (fun u v => key v ≤ key u) := by
  induction l with
  | nil => simp [insertDesc]
  | cons y ys ih =>
    rw [List.pairwise_cons] at h
    rw [insertDesc]
    by_cases hxy : key x < key y
    · rw [if_pos hxy, List.pairwise_cons]
      refine ⟨fun a ha => ?_, ih h.2⟩
      rcases (mem_insertDesc key x a ys).mp ha with h1 | h1
      · exact h1 ▸ le_of_lt hxy
      · exact h.1 a h1
    · rw [if_neg hxy, List.pairwise_cons]
      refine ⟨fun a ha => ?_, List.pairwise_cons.mpr h⟩
      rcases List.mem_cons.mp ha with h1 | h1
      · exact h1 ▸ not_lt.mp hxy
      · exact le_trans (h.1 a h1) (not_lt.mp hxy)

theorem pairwise_sortDesc {α : Type} (key : α → ℚ) (l : List α) :
    (sortDesc key l).Pairwise (fun u v => key v ≤ key u) := by
  induction l with
  | nil => simp [sortDesc]
  | cons x xs ih => exact pairwise_insertDesc key x _ ih

theorem mem_sortDesc {α : Type} (key : α → ℚ) (a : α) (l : List α) :
    a ∈ sortDesc key l ↔ a ∈ l := by
  induction l with
  | nil => simp [sortDesc]
  | cons x xs ih =>
    rw [sortDesc, mem_insertDesc, ih, List.mem_cons]

theorem filter_insertDesc {α : Type} (key : α → ℚ) (x : α) (l : List α)
    (c : ℚ) :
    (insertDesc key x l).filter (fun a => decide (key a = c)) =
      if key x = c then x :: l.filter (fun a => decide (key a = c))
      else l.filter (fun a => decide (key a = c)) := by
  induction l with
  | nil =>
    by_cases hx : key x = c <;> simp [insertDesc, List.filter, hx]
  | cons y ys ih =>
    rw [insertDesc]
    split
    · rename_i hxy
      rw [List.filter_cons, ih]
      by_cases hx : key x = c
      · have hy : ¬ key y = c := by
          intro hy
          rw [hx, hy] at hxy
          exact lt_irrefl c hxy
        simp [hx, hy, List.filter_cons]
      · by_cases hy : key y = c <;> simp [hx, hy, List.filter_cons]
    · by_cases hx : key x = c <;> simp [hx, List.filter_cons]

theorem filter_sortDesc {α : Type} (key : α → ℚ) (l : List α) (c : ℚ) :
    (sortDesc key l).filter (fun a => decide (key a = c)) =
      l.filter (fun a => decide (key a = c)) := by
  induction l with
  | nil => rfl
  | cons x xs ih =>
    rw [sortDesc, filter_insertDesc, List.filter_cons]
    split <;> rename_i h <;> simp_all

/-! ## Lemmas about the similarity engine and the consistency check -/

theorem dotl_self_nonneg (a : List ℝ) : 0 ≤ dotl a a := by
  induction a with
  | nil => simp [dotl]
  | cons x xs ih =>
    have h : dotl (x :: xs) (x :: xs) = x * x + dotl xs xs := by
      simp [dotl]
    rw [h]
    nlinarith [mul_self_nonneg x]

theorem dotl_sq_le (a : List ℝ) :
    ∀ b : List ℝ, dotl a b ^ 2 ≤ dotl a a * dotl b b := by
  induction a with
  | nil =>
    intro b
    simp [dotl]
  | cons x xs ih =>
    intro b
    cases b with
    | nil => simp [dotl]
    | cons y ys =>
      have h1 : dotl (x :: xs) (y :: ys) = x * y + dotl xs ys := by simp [dotl]
      have h2 : dotl (x :: xs) (x :: xs) = x * x + dotl xs xs := by simp [dotl]
      have h3 : dotl (y :: ys) (y :: ys) = y * y + dotl ys ys := by simp [dotl]
      have ihb := ih ys
      have ha := dotl_self_nonneg xs
      have hb := dotl_self_nonneg ys
      rw [h1, h2, h3]
      rcases eq_or_lt_of_le ha with hA | hA
      · have hd : dotl xs ys = 0 := by
          have hz : dotl xs ys ^ 2 ≤ 0 := by
            calc dotl xs ys ^ 2 ≤ dotl xs xs * dotl ys ys := ihb
            _ = 0 := by rw [← hA, zero_mul]
          have hnn := sq_nonneg (dotl xs ys)
          have hsq : dotl xs ys ^ 2 = 0 := le_antisymm hz hnn
          exact pow_eq_zero_iff (by norm_num) |>.mp hsq
        rw [hd, ← hA]
        nlinarith [mul_nonneg (mul_self_nonneg x) hb]
      · nlinarith [sq_nonneg (x * dotl xs ys - y * dotl xs xs), hA,
          mul_nonneg (add_nonneg ha (mul_self_nonneg x))
            (sub_nonneg.mpr ihb)]

theorem abs_dotl_le (a b : List ℝ) : |dotl a b| ≤ norml a * norml b := by
  rw [norml, norml, ← Real.sqrt_mul (dotl_self_nonneg a)]
  calc |dotl a b| = Real.sqrt (dotl a b ^ 2) := (Real.sqrt_sq_eq_abs _).symm
  _ ≤ Real.sqrt (dotl a a * dotl b b) := Real.sqrt_le_sqrt (dotl_sq_le a b)

theorem cosineSim_bounds (a b : List ℝ) (ha : dotl a a ≠ 0)
    (hb : dotl b b ≠ 0) : -1 ≤ cosineSim a b ∧ cosineSim a b ≤ 1 := by
  have hapos : 0 < dotl a a := lt_of_le_of_ne (dotl_self_nonneg a) (Ne.symm ha)
  have hbpos : 0 < dotl b b := lt_of_le_of_ne (dotl_self_nonneg b) (Ne.symm hb)
  have hna : 0 < norml a := Real.sqrt_pos.mpr hapos
  have hnb : 0 < norml b := Real.sqrt_pos.mpr hbpos
  have hpos : 0 < norml a * norml b := mul_pos hna hnb
  obtain ⟨hl, hr⟩ := abs_le.mp (abs_dotl_le a b)
  rw [cosineSim]
  constructor
  · rw [le_div_iff₀ hpos]
    linarith
  · rw [div_le_one hpos]
    exact hr

theorem pairwiseConsistent_iff_pairwise {α : Type} (sim : α → α → ℚ)
    (m : ℚ) (l : List α) :
    pairwiseConsistent sim m l = true ↔
      l.Pairwise (fun a b => m ≤ sim a b) := by
  induction l with
  | nil => simp [pairwiseConsistent]
  | cons x xs ih =>
    rw [pairwiseConsistent, Bool.and_eq_true, List.pairwise_cons, ih,
      List.all_eq_true]
    simp

theorem check_sample_consistency_iff_pairwise {α : Type} (sim : α → α → ℚ)
    (m : ℚ) (l : List α) :
    check_sample_consistency sim m l = true ↔
      l.Pairwise (fun a b => m ≤ sim a b) := by
  rw [check_sample_consistency]
  by_cases h : l.length < 2
  · rw [if_pos h]
    match l, h with
    | [], _ => simp
    | [x], _ => simp
  · rw [if_neg h]
    exact pairwiseConsistent_iff_pairwise sim m l

theorem dictLookup_update_same {α μ : Type} (db : List (String × UserEntry α μ))
    (uid : String) (fv : α) :
    dictLookup uid (db.map fun p =>
      if p.1 = uid then
        (p.1, (⟨p.2.templates ++ [fv], p.2.metadata⟩ : UserEntry α μ))
      else p) =
    (dictLookup uid db).map fun e =>
      (⟨e.templates ++ [fv], e.metadata⟩ : UserEntry α μ) := by
  induction db with
  | nil => rfl
  | cons p ps ih =>
    by_cases hp : p.1 = uid
    · simp [dictLookup, hp]
    · simp [dictLookup, hp, ih]

theorem dictLookup_update_other {α μ : Type} (db : List (String × UserEntry α μ))
    (uid other : String) (fv : α) (hne : other ≠ uid) :
    dictLookup other (db.map fun p =>
      if p.1 = uid then
        (p.1, (⟨p.2.templates ++ [fv], p.2.metadata⟩ : UserEntry α μ))
      else p) =
    dictLookup other db := by
  induction db with
  | nil => rfl
  | cons p ps ih =>
    by_cases hp : p.1 = uid
    · have huo : uid ≠ other := fun hh => hne hh.symm
      simp [dictLookup, hp, huo, ih]
    · by_cases ho : p.1 = other
      · simp [dictLookup, hp, ho, hne, ih]
      · simp [dictLookup, hp, ho, hne, ih]

/-! ## The claims -/

/-- C6: for a claimed identity present in the store with at least one
template, verification returns as confidence the maximum similarity between
the probe vector and the stored templates, and accepts exactly when that
maximum reaches the verification threshold. -/
theorem C6_verify_max {α μ : Type} (sim : α → α → ℚ) (vthr : ℚ)
    (db : List (String × UserEntry α μ)) (uid : String) (feat : α)
    (ts : List α) (h : get_user_templates db uid = some ts)
    (hne : ts ≠ []) :
    ∃ b c, verify sim vthr db uid feat = some (b, c) ∧
      c ∈ ts.map (sim feat) ∧
      (∀ s ∈ ts.map (sim feat), s ≤ c) ∧
      (b = true ↔ vthr ≤ c) := by
  cases ts with
  | nil => exact absurd rfl hne
  | cons t ts' =>
    refine ⟨decide (vthr ≤ foldlMax (sim feat t) (ts'.map (sim feat))),
      foldlMax (sim feat t) (ts'.map (sim feat)), ?_, ?_, ?_, ?_⟩
    · rw [verify, h]
      rfl
    · exact foldlMax_mem (sim feat t) (ts'.map (sim feat))
    · exact le_foldlMax (sim feat t) (ts'.map (sim feat))
    · simp

/-- C6 witness: a store holding alice with one template, probed with a
vector identical to the template under an equality-testing similarity. -/
theorem C6_witness :
    ∃ b c,
      verify (fun a b : ℚ => if a = b then 1 else 0) (3/4)
        [("alice", (⟨[1], ()⟩ : UserEntry ℚ Unit))] "alice" 1 = some (b, c) ∧
      c ∈ [(1 : ℚ)].map (fun t => if (1 : ℚ) = t then (1 : ℚ) else 0) ∧
      (∀ s ∈ [(1 : ℚ)].map (fun t => if (1 : ℚ) = t then (1 : ℚ) else 0),
        s ≤ c) ∧
      (b = true ↔ 3/4 ≤ c) :=
  C6_verify_max (fun a b : ℚ => if a = b then 1 else 0) (3/4)
    [("alice", ⟨[1], ()⟩)] "alice" 1 [1] (by decide) (by decide)

/-- C7: the consistency check rejects a batch exactly when some pair of
vectors at positions i < j scores strictly below the minimum pairwise
similarity, and every batch of size 0 or 1 passes. -/
theorem C7_consistency_iff {α : Type} (sim : α → α → ℚ) (m : ℚ)
    (l : List α) :
    (check_sample_consistency sim m l = false ↔
      ∃ i j : Fin l.length, i < j ∧ sim (l.get i) (l.get j) < m) ∧
    check_sample_consistency sim m ([] : List α) = true ∧
    ∀ v : α, check_sample_consistency sim m [v] = true := by
  refine ⟨?_, rfl, fun v => rfl⟩
  rw [← Bool.not_eq_true, check_sample_consistency_iff_pairwise,
    List.pairwise_iff_get]
  push_neg
  simp only [not_le]

/-- C7 witness: a two-vector batch whose pair scores 0, below the minimum
0.65, is rejected; singleton and empty batches pass. -/
theorem C7_witness :
    (check_sample_consistency (fun a b : ℚ => if a = b then 1 else 0)
        (65/100) [0, 1] = false ↔
      ∃ i j : Fin ([0, 1] : List ℚ).length, i < j ∧
        (if ([0, 1] : List ℚ).get i = ([0, 1] : List ℚ).get j then (1 : ℚ)
          else 0) < 65/100) ∧
    check_sample_consistency (fun a b : ℚ => if a = b then 1 else 0)
      (65/100) ([] : List ℚ) = true ∧
    ∀ v : ℚ, check_sample_consistency (fun a b : ℚ => if a = b then 1 else 0)
      (65/100) [v] = true :=
  C7_consistency_iff (fun a b : ℚ => if a = b then 1 else 0) (65/100) [0, 1]

/-- C8: an enrollment batch that fails the pairwise consistency check makes
enrollment report failure and leaves the template store exactly as it was:
no identity and no template is created. -/
theorem C8_enroll_rollback {α μ : Type} (sim : α → α → ℚ) (minSim : ℚ)
    (minSamples : ℕ) (db : List (String × UserEntry α μ)) (uid : String)
    (fvs : List α) (meta : μ)
    (h : check_sample_consistency sim minSim fvs = false) :
    enroll_user sim minSim minSamples db uid fvs meta = (false, db) := by
  rw [enroll_user]
  by_cases hlen : fvs.length < minSamples
  · rw [if_pos hlen]
  · rw [if_neg hlen]
    simp [h]

/-- C8 witness: a three-sample batch with an inconsistent pair leaves an
empty store empty and fails. -/
theorem C8_witness :
    enroll_user (fun a b : ℚ => if a = b then 1 else 0) 1 3
      ([] : List (String × UserEntry ℚ Unit)) "alice" [0, 1, 0] () =
      (false, []) :=
  C8_enroll_rollback (fun a b : ℚ => if a = b then 1 else 0) 1 3
    [] "alice" [0, 1, 0] () (by decide)

/-- C10: enrolling a vector under an already-present user id reports true and
appends the vector to the end of that users template list, keeping its
metadata and every other entry (and the entry count) unchanged; no duplicate
or uniqueness check is made. -/
theorem C10_reenroll_append {α μ : Type} (db : List (String × UserEntry α μ))
    (uid : String) (fv : α) (meta : μ) (e : UserEntry α μ)
    (h : dictLookup uid db = some e) :
    db_enroll_user db uid fv meta =
      (true, db.map fun p =>
        if p.1 = uid then
          (p.1, (⟨p.2.templates ++ [fv], p.2.metadata⟩ : UserEntry α μ))
        else p) ∧
    dictLookup uid (db_enroll_user db uid fv meta).2 =
      some ⟨e.templates ++ [fv], e.metadata⟩ ∧
    (∀ other : String, other ≠ uid →
      dictLookup other (db_enroll_user db uid fv meta).2 =
        dictLookup other db) ∧
    (db_enroll_user db uid fv meta).2.length = db.length := by
  have hsome : (dictLookup uid db).isSome := by
    rw [h]
    rfl
  have hmain : db_enroll_user db uid fv meta =
      (true, db.map fun p =>
        if p.1 = uid then
          (p.1, (⟨p.2.templates ++ [fv], p.2.metadata⟩ : UserEntry α μ))
        else p) := by
    rw [db_enroll_user, if_pos hsome]
  refine ⟨hmain, ?_, ?_, ?_⟩
  · rw [hmain, dictLookup_update_same, h]
    rfl
  · intro other hne
    rw [hmain]
    exact dictLookup_update_other db uid other fv hne
  · rw [hmain]
    exact List.length_map db _

/-- C10 witness: re-enrolling alice appends the new template after the old
one, keeps bob untouched, and adds no entry. -/
theorem C10_witness :
    db_enroll_user
        [("alice", (⟨[1], ()⟩ : UserEntry ℚ Unit)), ("bob", ⟨[2], ()⟩)]
        "alice" 3 () =
      (true, [("alice", (⟨[1], ()⟩ : UserEntry ℚ Unit)),
          ("bob", ⟨[2], ()⟩)].map fun p =>
        if p.1 = "alice" then
          (p.1, (⟨p.2.templates ++ [3], p.2.metadata⟩ : UserEntry ℚ Unit))
        else p) ∧
    dictLookup "alice" (db_enroll_user
        [("alice", (⟨[1], ()⟩ : UserEntry ℚ Unit)), ("bob", ⟨[2], ()⟩)]
        "alice" 3 ()).2 = some ⟨[1] ++ [3], ()⟩ ∧
    (∀ other : String, other ≠ "alice" →
      dictLookup other (db_enroll_user
          [("alice", (⟨[1], ()⟩ : UserEntry ℚ Unit)), ("bob", ⟨[2], ()⟩)]
          "alice" 3 ()).2 =
        dictLookup other
          [("alice", (⟨[1], ()⟩ : UserEntry ℚ Unit)), ("bob", ⟨[2], ()⟩)]) ∧
    (db_enroll_user
        [("alice", (⟨[1], ()⟩ : UserEntry ℚ Unit)), ("bob", ⟨[2], ()⟩)]
        "alice" 3 ()).2.length =
      ([("alice", (⟨[1], ()⟩ : UserEntry ℚ Unit)),
        ("bob", ⟨[2], ()⟩)] : List (String × UserEntry ℚ Unit)).length :=
  C10_reenroll_append
    [("alice", ⟨[1], ()⟩), ("bob", ⟨[2], ()⟩)] "alice" 3 () ⟨[1], ()⟩
    (by decide)

/-- C1 (amended): for an identity with a non-empty template list,
FBIMatcher.match_against_database builds its row with confidence
0.7 * max_similarity + 0.3 * avg_similarity, where max_similarity is the
greatest per-template similarity and avg_similarity is their arithmetic
mean; BiometricAuthSystem.identify instead scores the identity by the
maximum similarity alone. -/
theorem C1_confidence_formulas {α : Type} (sim : α → α → ℚ) (thr : ℚ)
    (q : α) (uid : String) (ts : List α) (hne : ts ≠ []) :
    (matchRow sim thr q (uid, ts)).confidence =
      0.7 * (matchRow sim thr q (uid, ts)).max_similarity +
      0.3 * (matchRow sim thr q (uid, ts)).avg_similarity ∧
    (matchRow sim thr q (uid, ts)).max_similarity ∈ ts.map (sim q) ∧
    (∀ s ∈ ts.map (sim q),
      s ≤ (matchRow sim thr q (uid, ts)).max_similarity) ∧
    (matchRow sim thr q (uid, ts)).avg_similarity =
      (ts.map (sim q)).sum / ((ts.map (sim q)).length : ℚ) ∧
    identifyRow sim q (uid, ts) =
      some (uid, (matchRow sim thr q (uid, ts)).max_similarity) := by
  cases ts with
  | nil => exact absurd rfl hne
  | cons t ts' =>
    refine ⟨rfl, ?_, ?_, rfl, rfl⟩
    · exact foldlMax_mem (sim q t) (ts'.map (sim q))
    · exact le_foldlMax (sim q t) (ts'.map (sim q))

/-- C1 witness: two templates scoring 1 and 0 against the probe. -/
theorem C1_witness :
    (matchRow (fun a b : ℚ => if b = 0 then 1 else 0) 1 0
        ("u", [0, 1])).confidence =
      0.7 * (matchRow (fun a b : ℚ => if b = 0 then 1 else 0) 1 0
        ("u", [0, 1])).max_similarity +
      0.3 * (matchRow (fun a b : ℚ => if b = 0 then 1 else 0) 1 0
        ("u", [0, 1])).avg_similarity ∧
    (matchRow (fun a b : ℚ => if b = 0 then 1 else 0) 1 0
        ("u", [0, 1])).max_similarity ∈
      ([0, 1] : List ℚ).map (fun b => if b = 0 then (1 : ℚ) else 0) ∧
    (∀ s ∈ ([0, 1] : List ℚ).map (fun b => if b = 0 then (1 : ℚ) else 0),
      s ≤ (matchRow (fun a b : ℚ => if b = 0 then 1 else 0) 1 0
        ("u", [0, 1])).max_similarity) ∧
    (matchRow (fun a b : ℚ => if b = 0 then 1 else 0) 1 0
        ("u", [0, 1])).avg_similarity =
      (([0, 1] : List ℚ).map (fun b => if b = 0 then (1 : ℚ) else 0)).sum /
        ((([0, 1] : List ℚ).map
          (fun b => if b = 0 then (1 : ℚ) else 0)).length : ℚ) ∧
    identifyRow (fun a b : ℚ => if b = 0 then 1 else 0) 0 ("u", [0, 1]) =
      some ("u", (matchRow (fun a b : ℚ => if b = 0 then 1 else 0) 1 0
        ("u", [0, 1])).max_similarity) :=
  C1_confidence_formulas (fun a b : ℚ => if b = 0 then 1 else 0) 1 0
    "u" [0, 1] (by decide)

/-- C1 counterexample: on a database with one identity holding two templates
whose similarities against the probe are 1 and 0,
BiometricAuthSystem.identify returns confidence 1, while the formula the
claim states for the identification protocol gives
0.7 * 1 + 0.3 * ((1 + 0) / 2). -/
theorem C1_cex :
    identify (fun a b : ℚ => if b = 0 then 1 else 0) 0 0
        [("u", [0, 1])] 5 = some [("u", 1)] ∧
    (1 : ℚ) ≠ 0.7 * 1 + 0.3 * ((1 + 0) / 2) := by
  constructor
  · decide
  · norm_num

/-- C2 (amended): BiometricAuthSystem.identify returns only candidates whose
score reaches the identification threshold and at most top_k of them;
FBIMatcher.match_against_database truncates to top_k but keeps candidates
below its threshold, merely flagging them with is_match false. -/
theorem C2_threshold_topk {α : Type} (sim : α → α → ℚ) (thr : ℚ) (q : α)
    (db : List (String × List α)) (k : ℕ) (res : List (String × ℚ))
    (h : identify sim thr q db k = some res) :
    (∀ m ∈ res, thr ≤ m.2) ∧ res.length ≤ k ∧
    (match_against_database sim thr q db k).length ≤ k ∧
    ∀ r ∈ match_against_database sim thr q db k,
      r.is_match = decide (thr ≤ r.confidence) := by
  have hex : ∃ ms, collectMatches sim q db = some ms ∧
      res = ((sortDesc (fun m => m.2) ms).filter
        (fun m => decide (thr ≤ m.2))).take k := by
    rw [identify] at h
    cases hc : collectMatches sim q db with
    | none =>
      rw [hc] at h
      exact absurd h (by simp)
    | some ms =>
      rw [hc] at h
      exact ⟨ms, rfl, (Option.some.inj h).symm⟩
  obtain ⟨ms, hms, hres⟩ := hex
  refine ⟨?_, ?_, ?_, ?_⟩
  · intro m hm
    rw [hres] at hm
    have h1 := List.mem_of_mem_take hm
    have h2 := List.mem_filter.mp h1
    exact of_decide_eq_true h2.2
  · rw [hres]
    exact List.length_take_le _ _
  · rw [match_against_database]
    exact List.length_take_le _ _
  · intro r hr
    rw [match_against_database] at hr
    have h1 := List.mem_of_mem_take hr
    have h2 := (mem_sortDesc _ r _).mp h1
    obtain ⟨p, hp, rfl⟩ := List.mem_map.mp h2
    rfl

/-- C2 witness: one enrolled identity scoring 1 with threshold 1 and
top_k 5. -/
theorem C2_witness :
    (∀ m ∈ ([("u", 1)] : List (String × ℚ)), (1 : ℚ) ≤ m.2) ∧
    ([("u", 1)] : List (String × ℚ)).length ≤ 5 ∧
    (match_against_database (fun a b : ℚ => 1) 1 0 [("u", [0])] 5).length
      ≤ 5 ∧
    ∀ r ∈ match_against_database (fun a b : ℚ => 1) 1 0 [("u", [0])] 5,
      r.is_match = decide ((1 : ℚ) ≤ r.confidence) :=
  C2_threshold_topk (fun a b : ℚ => 1) 1 0 [("u", [0])] 5 [("u", 1)]
    (by decide)

/-- C2 counterexample: with threshold 1, the candidate built by
FBIMatcher.match_against_database for a similarity-0 identity has confidence
0 yet stays in the returned list instead of being dropped. -/
theorem C2_cex :
    (match_against_database (fun a b : ℚ => 0) 1 0 [("u", [0])] 5).map
        (fun r => (r.person_id, r.confidence, r.is_match)) =
      [("u", 0, false)] ∧
    (0 : ℚ) < 1 := by
  constructor
  · rw [match_against_database]
    simp only [List.map_cons, List.map_nil, sortDesc, insertDesc,
      List.take, matchRow, match_against_person]
    norm_num [foldlMax]
  · norm_num

/-- C3 (amended): identification results are sorted by confidence in
descending order, in both protocols; candidates with equal confidence keep
the order in which they were generated from the store (the Python sort is
stable), not the ascending lexicographic order of their identifiers. -/
theorem C3_sorted_stable {α : Type} (sim : α → α → ℚ) (thr : ℚ) (q : α)
    (db : List (String × List α)) (k : ℕ) (res : List (String × ℚ))
    (h : identify sim thr q db k = some res) :
    res.Pairwise (fun a b => b.2 ≤ a.2) ∧
    (match_against_database sim thr q db k).Pairwise
      (fun a b => b.confidence ≤ a.confidence) ∧
    ∀ (l : List (String × ℚ)) (c : ℚ),
      (sortDesc (fun m => m.2) l).filter (fun m => decide (m.2 = c)) =
        l.filter (fun m => decide (m.2 = c)) := by
  have hex : ∃ ms, collectMatches sim q db = some ms ∧
      res = ((sortDesc (fun m => m.2) ms).filter
        (fun m => decide (thr ≤ m.2))).take k := by
    rw [identify] at h
    cases hc : collectMatches sim q db with
    | none =>
      rw [hc] at h
      exact absurd h (by simp)
    | some ms =>
      rw [hc] at h
      exact ⟨ms, rfl, (Option.some.inj h).symm⟩
  obtain ⟨ms, hms, hres⟩ := hex
  refine ⟨?_, ?_, fun l c => filter_sortDesc (fun m => m.2) l c⟩
  · rw [hres]
    exact List.Pairwise.sublist (List.take_sublist _ _)
      ((pairwise_sortDesc _ ms).filter _)
  · rw [match_against_database]
    exact List.Pairwise.sublist (List.take_sublist _ _)
      (pairwise_sortDesc _ _)

/-- C3 witness: two identities both scoring 1. -/
theorem C3_witness :
    ([("u", 1), ("v", 1)] : List (String × ℚ)).Pairwise
      (fun a b => b.2 ≤ a.2) ∧
    (match_against_database (fun a b : ℚ => 1) 1 0
        [("u", [0]), ("v", [0])] 5).Pairwise
      (fun a b => b.confidence ≤ a.confidence) ∧
    ∀ (l : List (String × ℚ)) (c : ℚ),
      (sortDesc (fun m => m.2) l).filter (fun m => decide (m.2 = c)) =
        l.filter (fun m => decide (m.2 = c)) :=
  C3_sorted_stable (fun a b : ℚ => 1) 1 0 [("u", [0]), ("v", [0])] 5
    [("u", 1), ("v", 1)] (by decide)

/-- C3 counterexample: two identities with exactly equal confidence come back
in store order, b before a, even though a is lexicographically smaller. -/
theorem C3_cex :
    identify (fun a b : ℚ => 1) 0 0 [("b", [0]), ("a", [0])] 5 =
      some [("b", 1), ("a", 1)] ∧ "a" < "b" := by
  refine ⟨by decide, ?_⟩
  rw [String.lt_iff_toList_lt]
  decide

/-- C4: on a database containing an identity with zero templates,
BiometricAuthSystem.identify aborts with the ValueError that Python max
raises on an empty sequence (modelled as none), and
FBIMatcher.match_against_database keeps that identity as a candidate with
confidence 0 instead of excluding it. -/
theorem C4_zero_templates {α : Type} (sim : α → α → ℚ) (thr : ℚ) (q : α)
    (k : ℕ) :
    identify sim thr q [("u", ([] : List α))] k = none ∧
    match_against_database sim thr q [("u", ([] : List α))] (k + 1) =
      [matchRow sim thr q ("u", [])] ∧
    (matchRow sim thr q ("u", ([] : List α))).confidence = 0 ∧
    (matchRow sim thr q ("u", ([] : List α))).person_id = "u" := by
  refine ⟨rfl, ?_, ?_, rfl⟩
  · rw [match_against_database]
    show List.take (k + 1) [matchRow sim thr q ("u", [])] =
      [matchRow sim thr q ("u", [])]
    rw [List.take_succ_cons, List.take_nil]
  · show (0.7 * 0 + 0.3 * 0 : ℚ) = 0
    norm_num

/-- C5 (amended): FBIMatcher.calculate_similarity is the cosine rescaled from
[-1, 1] to [0, 1] with no clamping, while
BiometricFeatureExtractor.compute_similarity is the raw cosine clamped into
[0, 1] with no rescaling; for non-degenerate vectors both lie in [0, 1]. -/
theorem C5_similarity_forms (a b : List ℝ) (ha : dotl a a ≠ 0)
    (hb : dotl b b ≠ 0) :
    calculate_similarity a b = (cosineSim a b + 1) / 2 ∧
    compute_similarity a b = max 0 (min 1 (cosineSim a b)) ∧
    0 ≤ calculate_similarity a b ∧ calculate_similarity a b ≤ 1 ∧
    0 ≤ compute_similarity a b ∧ compute_similarity a b ≤ 1 := by
  obtain ⟨hl, hr⟩ := cosineSim_bounds a b ha hb
  refine ⟨rfl, ?_, ?_, ?_, ?_, ?_⟩
  · rw [compute_similarity, sub_sub_cancel]
  · rw [calculate_similarity]
    linarith
  · rw [calculate_similarity]
    linarith
  · exact le_max_left 0 _
  · exact max_le (by norm_num) (min_le_left 1 _)

/-- C5 witness: the unit vectors (1, 0) and (0, 1). -/
theorem C5_witness :
    calculate_similarity [1, 0] [0, 1] =
      (cosineSim [1, 0] [0, 1] + 1) / 2 ∧
    compute_similarity [1, 0] [0, 1] =
      max 0 (min 1 (cosineSim [1, 0] [0, 1])) ∧
    0 ≤ calculate_similarity [1, 0] [0, 1] ∧
    calculate_similarity [1, 0] [0, 1] ≤ 1 ∧
    0 ≤ compute_similarity [1, 0] [0, 1] ∧
    compute_similarity [1, 0] [0, 1] ≤ 1 :=
  C5_similarity_forms [1, 0] [0, 1] (by norm_num [dotl])
    (by norm_num [dotl])

/-- C5 counterexample: for the orthogonal unit vectors (1, 0) and (0, 1) the
cosine is 0, so the rescaled and clamped similarity the claim describes is
1/2, but BiometricFeatureExtractor.compute_similarity returns 0. -/
theorem C5_cex :
    compute_similarity [1, 0] [0, 1] = 0 ∧
    specSimilarity [1, 0] [0, 1] = 1 / 2 ∧
    compute_similarity [1, 0] [0, 1] ≠ specSimilarity [1, 0] [0, 1] := by
  have hc : cosineSim [1, 0] [0, 1] = 0 := by
    rw [cosineSim]
    norm_num [dotl]
  have h1 : compute_similarity [1, 0] [0, 1] = 0 := by
    rw [compute_similarity, hc]
    norm_num
  have h2 : specSimilarity [1, 0] [0, 1] = 1 / 2 := by
    rw [specSimilarity, hc]
    norm_num
  refine ⟨h1, h2, ?_⟩
  rw [h1, h2]
  norm_num

/-- C9 (amended): when both vectors formed at the vertex are zero (all three
points coincide), the angle computation completes without raising, the
epsilon guard on the denominator giving a cosine of 0, and it returns an
angle of 90 degrees, not 0 degrees. -/
theorem C9_angle_degenerate (p1 p2 p3 : Point3) (h1 : p1 = p2)
    (h3 : p3 = p2) : calculate_angle p1 p2 p3 = 90 := by
  rw [h1, h3]
  have hv : sub3 p2 p2 = ⟨0, 0, 0⟩ := by
    simp [sub3]
  have hd : dot3 (⟨0, 0, 0⟩ : Point3) ⟨0, 0, 0⟩ = 0 := by
    simp [dot3]
  have hn : norm3 (⟨0, 0, 0⟩ : Point3) = 0 := by
    simp [norm3, dot3]
  simp only [calculate_angle, hv, hd, hn]
  have hz : ((0 : ℝ) * 0 + 1 / 1000000) = 1 / 1000000 := by norm_num
  rw [hz, zero_div]
  rw [max_eq_right (by norm_num : (-1 : ℝ) ≤ 0)]
  rw [min_eq_right (by norm_num : (0 : ℝ) ≤ 1)]
  rw [Real.arccos_zero]
  field_simp
  ring

/-- C9 witness: the triple of coincident origin points. -/
theorem C9_witness :
    calculate_angle ⟨0, 0, 0⟩ ⟨0, 0, 0⟩ ⟨0, 0, 0⟩ = 90 :=
  C9_angle_degenerate ⟨0, 0, 0⟩ ⟨0, 0, 0⟩ ⟨0, 0, 0⟩ rfl rfl

/-- C9 counterexample: at three coincident points the computed angle is 90
degrees, which is not the 0 degrees the claim states. -/
theorem C9_cex :
    calculate_angle ⟨0, 0, 0⟩ ⟨0, 0, 0⟩ ⟨0, 0, 0⟩ = 90 ∧
    (90 : ℝ) ≠ 0 := by
  constructor
  · have hv : sub3 (⟨0, 0, 0⟩ : Point3) ⟨0, 0, 0⟩ = ⟨0, 0, 0⟩ := by
      simp [sub3]
    have hd : dot3 (⟨0, 0, 0⟩ : Point3) ⟨0, 0, 0⟩ = 0 := by
      simp [dot3]
    have hn : norm3 (⟨0, 0, 0⟩ : Point3) = 0 := by
      simp [norm3, dot3]
    simp only [calculate_angle, hv, hd, hn]
    have hz : ((0 : ℝ) * 0 + 1 / 1000000) = 1 / 1000000 := by norm_num
    rw [hz, zero_div]
    rw [max_eq_right (by norm_num : (-1 : ℝ) ≤ 0)]
    rw [min_eq_right (by norm_num : (0 : ℝ) ≤ 1)]
    rw [Real.arccos_zero]
    field_simp
    ring
  · norm_num

end FaceRec
